import Mathlib

/-!
Shallow embedding of `tensor_calc.py` (ORCA susceptibility-tensor post-processor).

Numbers: Python floats are embedded as exact rationals `ℚ`; the claims about
floating-point tolerance are settled in their exact-arithmetic reading.
`np.pi` is embedded as the IEEE-754 double nearest π (the exact value of the
float constant `numpy.pi`).

Errors: Python exceptions are embedded as `Except PyError`.  The spec's
"ParseError" corresponds to the `ValueError` / `IndexError` the extractor
raises, and its "DomainError" to the `TypeError` / `ZeroDivisionError` the
unit conversion raises on a null / zero temperature.

The symmetric eigensolver `np.linalg.eigh` is an external LAPACK routine; it
is embedded as an oracle parameter `eigh : Matrix3 → List ℚ` standing for the
list of eigenvalues it returns, so that the sorting and the derived scalars —
the logic that lives in this repository — are embedded exactly.
-/

namespace TensorCalc

abbrev Matrix3 := Matrix (Fin 3) (Fin 3) ℚ

/-- The Python exceptions the script can raise, by their Python names. -/
inductive PyError where
  | valueError        -- float() applied to a non-numeric token
  | indexError        -- lines[i + 1 + j] past the end of the file
  | typeError         -- comparison / arithmetic with a None temperature
  | zeroDivisionError -- float division by a zero temperature
deriving DecidableEq, Repr

/-! ### String utilities modelling Python's `str.split()`, `in`, `float()` -/

/-- Python's `needle in haystack` substring test. -/
def containsSubstr (needle haystack : String) : Bool :=
  haystack.data.tails.any fun t => needle.data.isPrefixOf t

/-- Tokeniser behind `pySplit`: accumulate the current token (reversed) and
cut at whitespace, dropping empty pieces. -/
def splitWsAux : List Char → List Char → List (List Char)
  | [], acc => if acc.isEmpty then [] else [acc.reverse]
  | c :: cs, acc =>
      if c.isWhitespace then
        if acc.isEmpty then splitWsAux cs [] else acc.reverse :: splitWsAux cs []
      else splitWsAux cs (c :: acc)

/-- Python's `s.split()`: split on runs of whitespace, dropping empty pieces. -/
def pySplit (s : String) : List String :=
  (splitWsAux s.data []).map fun cs => String.mk cs

def digitsVal (cs : List Char) : ℕ :=
  cs.foldl (fun a c => 10 * a + (c.toNat - 48)) 0

def allDigits (cs : List Char) : Bool :=
  !cs.isEmpty && cs.all (·.isDigit)

/-- Leading sign of a numeric literal: `(negative?, rest)`. -/
def stripSign : List Char → Bool × List Char
  | '+' :: r => (false, r)
  | '-' :: r => (true, r)
  | r => (false, r)

/-- Mantissa `digits[.digits]` with at least one digit overall (Python accepts
`"1."` and `".5"` but not `"."`). -/
def parseUnsignedMantissa (cs : List Char) : Option ℚ :=
  match cs.splitOn '.' with
  | [ip] => if allDigits ip then some (digitsVal ip : ℚ) else none
  | [ip, fp] =>
      if ip.all (·.isDigit) && fp.all (·.isDigit) && !(ip.isEmpty && fp.isEmpty) then
        some ((digitsVal (ip ++ fp) : ℚ) / (10 : ℚ) ^ fp.length)
      else none
  | _ => none

def parseSignedInt (cs : List Char) : Option ℤ :=
  let sb := stripSign cs
  if allDigits sb.2 then
    some (if sb.1 then -(digitsVal sb.2 : ℤ) else (digitsVal sb.2 : ℤ))
  else none

/-- Python's `float()` on the decimal / scientific literals the script meets
(`[+-]?digits[.digits][(e|E)[+-]digits]`); exotic accepted spellings such as
`inf`, `nan` or underscores are not modelled.  `none` = `ValueError`. -/
def pyFloat? (s : String) : Option ℚ :=
  let cs := s.data.map fun c => if c = 'E' then 'e' else c
  let sb := stripSign cs
  let val? : Option ℚ :=
    match sb.2.splitOn 'e' with
    | [m] => parseUnsignedMantissa m
    | [m, ex] => do
        let mv ← parseUnsignedMantissa m
        let ev ← parseSignedInt ex
        pure (mv * (10 : ℚ) ^ ev)
    | _ => none
  val?.map fun v => if sb.1 then -v else v

deriving instance DecidableEq for Except

/-! ### The extractor: `parse_orca_output` -/

/-- A raw tensor as the script stores it: whatever rows `split()` + `float()`
produced.  The code never checks that a row has exactly 3 entries, and
`np.array(tensor)` is modelled as the raw rows: for uniform row widths
`np.array` succeeds in every numpy version, while an inhomogeneous (ragged)
block raises `ValueError` inside `np.array` on numpy ≥ 1.24 — a
version-dependent re-check outside this scan model. -/
abbrev PyTensor := List (List ℚ)

/-- The `tensors` dict: insertion-ordered association list keyed by the
current temperature, which is `None` before the first marker. -/
abbrev TensorDict := List (Option ℚ × PyTensor)

/-- Python dict update: overwrite in place (keeping the key's position) if the
key is present, else append at the end. -/
def dictInsert (k : Option ℚ) (v : PyTensor) : TensorDict → TensorDict
  | [] => [(k, v)]
  | (k', v') :: rest =>
      if k' = k then (k, v) :: rest else (k', v') :: dictInsert k v rest

def dictLookup (k : Option ℚ) : TensorDict → Option PyTensor
  | [] => none
  | (k', v) :: rest => if k' = k then some v else dictLookup k rest

/-- Row parse: `[float(x) for x in line.split()]`. -/
def parseRow (line : String) : Except PyError (List ℚ) :=
  (pySplit line).mapM fun tok =>
    match pyFloat? tok with
    | some q => Except.ok q
    | none => Except.error PyError.valueError

/-- The body of the `for i, line in enumerate(lines)` scan.  `lines[i+1+j]`
are the head elements of `rest`; rows are parsed left to right so a
`ValueError` in an early row precedes the `IndexError` of a missing later
row, exactly as in Python. -/
def parseLoop : List String → Option ℚ → TensorDict → Except PyError TensorDict
  | [], _, tensors => Except.ok tensors
  | line :: rest, current_temp, tensors =>
    let tempStep : Except PyError (Option ℚ) :=
      if containsSubstr "TEMPERATURE/K:" line then
        match (pySplit line).getLast? with
        | some tok =>
            match pyFloat? tok with
            | some t => Except.ok (some t)
            | none => Except.error PyError.valueError
        | none => Except.error PyError.indexError
      else Except.ok current_temp
    match tempStep with
    | Except.error e => Except.error e
    | Except.ok ct =>
      if containsSubstr "Tensor in molecular frame" line then
        match rest with
        | [] => Except.error PyError.indexError
        | [r1] => do
            let _ ← parseRow r1
            Except.error PyError.indexError
        | [r1, r2] => do
            let _ ← parseRow r1
            let _ ← parseRow r2
            Except.error PyError.indexError
        | r1 :: r2 :: r3 :: _ => do
            let row1 ← parseRow r1
            let row2 ← parseRow r2
            let row3 ← parseRow r3
            parseLoop rest ct (dictInsert ct [row1, row2, row3] tensors)
      else parseLoop rest ct tensors

/-- Top-level `parse_orca_output`, on the file's lines. -/
def parse_orca_output (lines : List String) : Except PyError TensorDict :=
  parseLoop lines none []

/-! ### The calculator: `convert_chi_tensor`, `calculate_traceless_tensor`,
`calculate_eigenvalues` -/

def avogadro_number : ℚ := 6.02214129e23

/-- Value of `np.pi` — the IEEE-754 double nearest π, exactly `884279719003555 / 2^48`. -/
def np_pi : ℚ := 884279719003555 / 281474976710656

/-- Conversion factor `(4 * np.pi * 1e24) / (avogadro_number * temperature)`. -/
def conv_factor (temperature : ℚ) : ℚ :=
  (4 * np_pi * 1e24) / (avogadro_number * temperature)

/-- Function `convert_chi_tensor(chi_tensor, temperature)`.  A `None` temperature makes
`avogadro_number * temperature` raise `TypeError`; a zero temperature makes
the float division raise `ZeroDivisionError` (both are the spec's
"DomainError").  Otherwise it returns `chi_tensor * factor` elementwise. -/
def convert_chi_tensor (chi_tensor : Matrix3) (temperature : Option ℚ) :
    Except PyError Matrix3 :=
  match temperature with
  | none => Except.error PyError.typeError
  | some t =>
      if t = 0 then Except.error PyError.zeroDivisionError
      else Except.ok (conv_factor t • chi_tensor)

/-- Function `calculate_traceless_tensor`: `chi - np.eye(3) * (trace(chi) / 3)`. -/
def calculate_traceless_tensor (chi_tensor : Matrix3) : Matrix3 :=
  chi_tensor - (Matrix.trace chi_tensor / 3) • (1 : Matrix3)

/-- Mehring reorder `eigvals[np.argsort(np.abs(eigvals))]`: reorder the eigenvalue list
ascending by absolute value (a stable sort stands in for argsort + gather;
the spec leaves the tie order to the underlying algorithm). -/
def mehringSort (eigvals : List ℚ) : List ℚ :=
  List.insertionSort (fun a b => |a| ≤ |b|) eigvals

/-- The tuple `calculate_eigenvalues` returns. -/
structure DecompResult where
  traceless_tensor : Matrix3
  eigvals : List ℚ
  ax_method1 : ℚ
  rh_method1 : ℚ
  ax_method2 : ℚ
  rh_method2 : ℚ
  rh_rel : ℚ
  iso : ℚ
deriving DecidableEq

/-- Function `calculate_eigenvalues(chi_tensor)`, with `np.linalg.eigh` abstracted as
the oracle `eigh` (its eigenvector output is discarded by the code).  In ℚ
the junk value of `x / 0` is `0`, standing in for the `inf`/`nan` that numpy
float division produces in `rh_rel` when `eigvals[0] == 0`. -/
def calculate_eigenvalues (eigh : Matrix3 → List ℚ) (chi_tensor : Matrix3) :
    DecompResult :=
  let traceless_tensor := calculate_traceless_tensor chi_tensor
  let eigvals := mehringSort (eigh traceless_tensor)
  let l0 := eigvals.getD 0 0
  let l1 := eigvals.getD 1 0
  let l2 := eigvals.getD 2 0
  { traceless_tensor := traceless_tensor
    eigvals := eigvals
    ax_method1 := 3 * l2 / 2
    rh_method1 := (l0 - l1) / 2
    ax_method2 := l2 - ((l0 + l1) / 2)
    rh_method2 := l0 - l1
    rh_rel := |(l0 - l1) / l0|
    iso := Matrix.trace chi_tensor / 3 * 1e-30 }

/-! ### The pipeline: `process_orca_file` -/

/-- One tuple of the `results` list. -/
structure ResultRecord where
  temperature : ℚ
  traceless_tensor : Matrix3
  eigvals : List ℚ
  ax1_m : ℚ
  rh1_m : ℚ
  ax2_m : ℚ
  rh2_m : ℚ
  rh_rel : ℚ
  iso : ℚ
deriving DecidableEq

/-- Shape test `t.length == 3 && all rows length 3`: whether the parsed block really is
a 3×3 array. -/
def isShape33 (t : PyTensor) : Bool :=
  t.length == 3 && t.all fun r => r.length == 3

/-- View a well-shaped parsed block as a matrix (row-major, like
`np.array`). -/
def toMatrix3 (t : PyTensor) : Matrix3 :=
  Matrix.of fun i j => (t.getD i []).getD j 0

/-- The `for temp, chi_tensor in tensors.items()` loop.  Comparing a `None`
key with the float bounds raises `TypeError`.  A non-3×3 block would make
numpy's broadcast in the traceless subtraction raise; it is modelled as a
`valueError` before any record is built. -/
def processEntries (eigh : Matrix3 → List ℚ) (min_temp max_temp : ℚ) :
    TensorDict → Except PyError (List ResultRecord)
  | [] => Except.ok []
  | (temp, chi) :: rest =>
    match temp with
    | none => Except.error PyError.typeError
    | some t =>
      if min_temp ≤ t ∧ t ≤ max_temp then
        if isShape33 chi then do
          let conv ← convert_chi_tensor (toMatrix3 chi) (some t)
          let r := calculate_eigenvalues eigh conv
          let rec_ : ResultRecord :=
            { temperature := t
              traceless_tensor := r.traceless_tensor
              eigvals := r.eigvals
              ax1_m := r.ax_method1 * 1e-30
              rh1_m := r.rh_method1 * 1e-30
              ax2_m := r.ax_method2 * 1e-30
              rh2_m := r.rh_method2 * 1e-30
              rh_rel := r.rh_rel
              iso := r.iso }
          let rs ← processEntries eigh min_temp max_temp rest
          Except.ok (rec_ :: rs)
        else Except.error PyError.valueError
      else processEntries eigh min_temp max_temp rest

/-- Function `process_orca_file(file_path, min_temp, max_temp)`, on the file's lines
and with the eigensolver oracle made explicit. -/
def process_orca_file (eigh : Matrix3 → List ℚ) (lines : List String)
    (min_temp max_temp : ℚ) : Except PyError (List ResultRecord) := do
  let tensors ← parse_orca_output lines
  processEntries eigh min_temp max_temp tensors

/-! ### Dictionary lemmas -/

theorem dictLookup_dictInsert_self (k : Option ℚ) (v : PyTensor) (d : TensorDict) :
    dictLookup k (dictInsert k v d) = some v := by
  induction d with
  | nil => simp [dictInsert, dictLookup]
  | cons p rest ih =>
      obtain ⟨k', v'⟩ := p
      by_cases h : k' = k <;> simp [dictInsert, dictLookup, h, ih]

theorem dictLookup_dictInsert_isSome (k k' : Option ℚ) (v : PyTensor) (d : TensorDict)
    (h : (dictLookup k d).isSome = true) :
    (dictLookup k (dictInsert k' v d)).isSome = true := by
  induction d with
  | nil => simp [dictLookup] at h
  | cons p rest ih =>
      obtain ⟨k₀, v₀⟩ := p
      by_cases hk : k₀ = k'
      · subst hk
        simp only [dictInsert, if_pos rfl]
        by_cases hkk : k₀ = k
        · simp [dictLookup, hkk]
        · simp only [dictLookup, if_neg hkk] at h ⊢
          exact h
      · simp only [dictInsert, if_neg hk]
        by_cases hkk : k₀ = k
        · simp [dictLookup, hkk]
        · simp only [dictLookup, if_neg hkk] at h ⊢
          exact ih h

/-- Every key of `dictInsert k v d` is `k` or a key of `d`. -/
theorem dictLookup_dictInsert_isSome_rev (k k' : Option ℚ) (v : PyTensor) (d : TensorDict)
    (h : (dictLookup k (dictInsert k' v d)).isSome = true) :
    k = k' ∨ (dictLookup k d).isSome = true := by
  induction d with
  | nil =>
      simp only [dictInsert, dictLookup] at h
      by_cases hk : k' = k
      · exact Or.inl hk.symm
      · simp [if_neg hk, dictLookup] at h
  | cons p rest ih =>
      obtain ⟨k₀, v₀⟩ := p
      by_cases hk : k₀ = k'
      · subst hk
        simp only [dictInsert, if_pos rfl] at h
        by_cases hkk : k₀ = k
        · right; simp [dictLookup, hkk]
        · simp only [dictLookup, if_neg hkk] at h
          by_cases hk2 : k = k₀
          · exact absurd hk2.symm hkk
          · right
            simp only [dictLookup, if_neg hkk]
            exact h
      · simp only [dictInsert, if_neg hk] at h
        by_cases hkk : k₀ = k
        · right; simp [dictLookup, hkk]
        · simp only [dictLookup, if_neg hkk] at h ⊢
          exact ih h

/-! ### Scan-step lemmas for `parseLoop` -/

@[simp]
theorem except_ok_bind {α β : Type} (v : α) (f : α → Except PyError β) :
    (Except.ok v >>= f) = f v := rfl

@[simp]
theorem except_error_bind {α β : Type} (e : PyError) (f : α → Except PyError β) :
    ((Except.error e : Except PyError α) >>= f) = Except.error e := rfl

theorem parseLoop_skip (line : String) (rest : List String) (ct : Option ℚ)
    (d : TensorDict)
    (h1 : containsSubstr "TEMPERATURE/K:" line = false)
    (h2 : containsSubstr "Tensor in molecular frame" line = false) :
    parseLoop (line :: rest) ct d = parseLoop rest ct d := by
  rw [parseLoop]
  simp [h1, h2]

theorem parseLoop_temp (line : String) (rest : List String) (ct : Option ℚ)
    (d : TensorDict) (tok : String) (t : ℚ)
    (h1 : containsSubstr "TEMPERATURE/K:" line = true)
    (h2 : (pySplit line).getLast? = some tok)
    (h3 : pyFloat? tok = some t)
    (h4 : containsSubstr "Tensor in molecular frame" line = false) :
    parseLoop (line :: rest) ct d = parseLoop rest (some t) d := by
  rw [parseLoop]
  simp [h1, h2, h3, h4]

theorem parseLoop_block (line r1 r2 r3 : String) (tl : List String) (ct : Option ℚ)
    (d : TensorDict) (v1 v2 v3 : List ℚ)
    (h1 : containsSubstr "TEMPERATURE/K:" line = false)
    (h2 : containsSubstr "Tensor in molecular frame" line = true)
    (hr1 : parseRow r1 = Except.ok v1)
    (hr2 : parseRow r2 = Except.ok v2)
    (hr3 : parseRow r3 = Except.ok v3) :
    parseLoop (line :: r1 :: r2 :: r3 :: tl) ct d
      = parseLoop (r1 :: r2 :: r3 :: tl) ct (dictInsert ct [v1, v2, v3] d) := by
  rw [parseLoop]
  simp [h1, h2, hr1, hr2, hr3]

/-- Marker-free lines are skipped wholesale. -/
theorem parseLoop_append_skip (pre : List String)
    (h : ∀ l ∈ pre, containsSubstr "TEMPERATURE/K:" l = false ∧
        containsSubstr "Tensor in molecular frame" l = false) :
    ∀ (suffix : List String) (ct : Option ℚ) (d : TensorDict),
      parseLoop (pre ++ suffix) ct d = parseLoop suffix ct d := by
  induction pre with
  | nil => intro suffix ct d; rfl
  | cons line rest ih =>
      intro suffix ct d
      obtain ⟨h1, h2⟩ := h line (List.mem_cons_self line rest)
      rw [List.cons_append, parseLoop_skip line _ ct d h1 h2]
      exact ih (fun l hl => h l (List.mem_cons_of_mem line hl)) suffix ct d

/-- A key present in the accumulating dict is still present in a successful
scan's result. -/
theorem parseLoop_preserves_key (k : Option ℚ) (lines : List String) :
    ∀ (ct : Option ℚ) (d d' : TensorDict),
      parseLoop lines ct d = Except.ok d' →
      (dictLookup k d).isSome = true → (dictLookup k d').isSome = true := by
  induction lines with
  | nil =>
      intro ct d d' h hk
      rw [parseLoop] at h
      cases h
      exact hk
  | cons line rest ih =>
      intro ct d d' h hk
      rw [parseLoop] at h
      dsimp only at h
      split at h
      · exact absurd h (by simp)
      · split at h
        · split at h
          · exact absurd h (by simp)
          · cases hp : parseRow _ <;> rw [hp] at h <;>
              simp only [except_ok_bind, except_error_bind] at h <;> cases h
          · rename_i r1 r2
            cases hp1 : parseRow r1 <;> rw [hp1] at h <;>
              simp only [except_ok_bind, except_error_bind] at h
            · cases h
            · cases hp2 : parseRow r2 <;> rw [hp2] at h <;>
                simp only [except_ok_bind, except_error_bind] at h <;> cases h
          · rename_i r1 r2 r3 tl'
            cases hp1 : parseRow r1 <;> rw [hp1] at h <;>
              simp only [except_ok_bind, except_error_bind] at h
            · cases h
            cases hp2 : parseRow r2 <;> rw [hp2] at h <;>
              simp only [except_ok_bind, except_error_bind] at h
            · cases h
            cases hp3 : parseRow r3 <;> rw [hp3] at h <;>
              simp only [except_ok_bind, except_error_bind] at h
            · cases h
            · exact ih _ _ _ h (dictLookup_dictInsert_isSome k _ _ d hk)
        · exact ih _ _ _ h hk

/-- Without any tensor-block marker the scan never inserts: the dict comes
back unchanged (or the scan dies on a bad temperature token). -/
theorem parseLoop_no_insert (lines : List String)
    (h : ∀ l ∈ lines, containsSubstr "Tensor in molecular frame" l = false) :
    ∀ (ct : Option ℚ) (d : TensorDict),
      parseLoop lines ct d = Except.ok d ∨ ∃ e, parseLoop lines ct d = Except.error e := by
  induction lines with
  | nil => intro ct d; left; rfl
  | cons line rest ih =>
      intro ct d
      rw [parseLoop]
      dsimp only
      split
      · right; exact ⟨_, rfl⟩
      · rw [if_neg (by rw [h line (List.mem_cons_self line rest)]; simp)]
        exact ih (fun l hl => h l (List.mem_cons_of_mem line hl)) _ d

/-! ### Claims about the extractor -/

/-- C5: when a tensor-block marker precedes any temperature marker, a
successful extraction keys that block under the null temperature: the
returned mapping has an entry at the `none` key (the input is not rejected
and the key is not coerced to a number). -/
theorem C5_pre_temperature_block_null_key (pre : List String)
    (m r1 r2 r3 : String) (post : List String) (v1 v2 v3 : List ℚ) (d : TensorDict)
    (hpre : ∀ l ∈ pre, containsSubstr "TEMPERATURE/K:" l = false ∧
        containsSubstr "Tensor in molecular frame" l = false)
    (hm1 : containsSubstr "TEMPERATURE/K:" m = false)
    (hm2 : containsSubstr "Tensor in molecular frame" m = true)
    (hr1 : parseRow r1 = Except.ok v1)
    (hr2 : parseRow r2 = Except.ok v2)
    (hr3 : parseRow r3 = Except.ok v3)
    (hok : parse_orca_output (pre ++ m :: r1 :: r2 :: r3 :: post) = Except.ok d) :
    (dictLookup none d).isSome = true := by
  rw [parse_orca_output, parseLoop_append_skip pre hpre,
    parseLoop_block m r1 r2 r3 post none [] v1 v2 v3 hm1 hm2 hr1 hr2 hr3] at hok
  exact parseLoop_preserves_key none _ _ _ _ hok (by simp [dictInsert, dictLookup])

/-- C6: two tensor blocks under one temperature marker leave exactly one
mapping entry for that temperature, holding the second (last) block; and an
input with no tensor-block marker at all yields an empty mapping (or dies on
a malformed temperature) — a temperature marker alone emits nothing. -/
theorem C6_last_write_wins
    (tl m1 a1 a2 a3 m2 b1 b2 b3 tok : String) (t : ℚ)
    (va1 va2 va3 vb1 vb2 vb3 : List ℚ) (lines : List String)
    (htl1 : containsSubstr "TEMPERATURE/K:" tl = true)
    (htl2 : (pySplit tl).getLast? = some tok)
    (htl3 : pyFloat? tok = some t)
    (htl4 : containsSubstr "Tensor in molecular frame" tl = false)
    (hm1a : containsSubstr "TEMPERATURE/K:" m1 = false)
    (hm1b : containsSubstr "Tensor in molecular frame" m1 = true)
    (hm2a : containsSubstr "TEMPERATURE/K:" m2 = false)
    (hm2b : containsSubstr "Tensor in molecular frame" m2 = true)
    (ha : ∀ l ∈ [a1, a2, a3], containsSubstr "TEMPERATURE/K:" l = false ∧
        containsSubstr "Tensor in molecular frame" l = false)
    (hb : ∀ l ∈ [b1, b2, b3], containsSubstr "TEMPERATURE/K:" l = false ∧
        containsSubstr "Tensor in molecular frame" l = false)
    (hra1 : parseRow a1 = Except.ok va1)
    (hra2 : parseRow a2 = Except.ok va2)
    (hra3 : parseRow a3 = Except.ok va3)
    (hrb1 : parseRow b1 = Except.ok vb1)
    (hrb2 : parseRow b2 = Except.ok vb2)
    (hrb3 : parseRow b3 = Except.ok vb3)
    (hlines : ∀ l ∈ lines, containsSubstr "Tensor in molecular frame" l = false) :
    parse_orca_output [tl, m1, a1, a2, a3, m2, b1, b2, b3]
        = Except.ok [(some t, [vb1, vb2, vb3])] ∧
    (parse_orca_output lines = Except.ok []
      ∨ ∃ e, parse_orca_output lines = Except.error e) := by
  constructor
  · rw [parse_orca_output,
      parseLoop_temp tl _ none [] tok t htl1 htl2 htl3 htl4,
      parseLoop_block m1 a1 a2 a3 [m2, b1, b2, b3] (some t) [] va1 va2 va3
        hm1a hm1b hra1 hra2 hra3]
    rw [parseLoop_skip a1 _ _ _ (ha a1 (by simp)).1 (ha a1 (by simp)).2,
      parseLoop_skip a2 _ _ _ (ha a2 (by simp)).1 (ha a2 (by simp)).2,
      parseLoop_skip a3 _ _ _ (ha a3 (by simp)).1 (ha a3 (by simp)).2,
      parseLoop_block m2 b1 b2 b3 [] (some t) _ vb1 vb2 vb3 hm2a hm2b hrb1 hrb2 hrb3,
      parseLoop_skip b1 _ _ _ (hb b1 (by simp)).1 (hb b1 (by simp)).2,
      parseLoop_skip b2 _ _ _ (hb b2 (by simp)).1 (hb b2 (by simp)).2,
      parseLoop_skip b3 _ _ _ (hb b3 (by simp)).1 (hb b3 (by simp)).2]
    simp [parseLoop, dictInsert]
  · exact parseLoop_no_insert lines hlines none []

/-- Mapping `float()` over a token list fails as soon as some token is
non-numeric. -/
theorem mapM_float_error (l : List String) (tok : String)
    (htok : tok ∈ l) (hbad : pyFloat? tok = none) :
    (l.mapM fun t => match pyFloat? t with
        | some q => Except.ok q
        | none => Except.error PyError.valueError)
      = (Except.error PyError.valueError : Except PyError (List ℚ)) := by
  induction l with
  | nil => simp at htok
  | cons hd tl ih =>
      rw [List.mapM_cons]
      rcases List.mem_cons.mp htok with h | h
      · subst h
        rw [hbad]
        rfl
      · cases hf : pyFloat? hd
        · rfl
        · simp only [except_ok_bind, ih h, except_error_bind]

/-- A row holding a non-numeric token fails to parse: Python's `float()`
raises `ValueError` on it. -/
theorem parseRow_error_of_bad_token (line tok : String)
    (htok : tok ∈ pySplit line) (hbad : pyFloat? tok = none) :
    parseRow line = Except.error PyError.valueError :=
  mapM_float_error (pySplit line) tok htok hbad

/-- A malformed tensor block — its marker followed by fewer than 3 lines, or
one of the 3 following rows failing to parse — kills the whole scan with an
error, whatever the state. -/
theorem parseLoop_badblock (lines : List String) :
    ∀ (i : ℕ) (ct : Option ℚ) (d : TensorDict), i < lines.length →
      containsSubstr "Tensor in molecular frame" (lines.getD i "") = true →
      (lines.length ≤ i + 3 ∨
        ∃ j, j < 3 ∧ parseRow (lines.getD (i + 1 + j) "") = Except.error PyError.valueError) →
      ∃ e, parseLoop lines ct d = Except.error e := by
  induction lines with
  | nil => intro i ct d hi; simp at hi
  | cons line rest ih =>
      intro i ct d hi hmark hbad
      rw [parseLoop]
      dsimp only
      split
      · exact ⟨_, rfl⟩
      · cases i with
        | zero =>
            simp only [List.getD_cons_zero] at hmark
            rw [if_pos hmark]
            rcases rest with _ | ⟨r1, _ | ⟨r2, _ | ⟨r3, tl⟩⟩⟩
            · exact ⟨_, rfl⟩
            · cases hp : parseRow r1 <;> simp [hp]
            · cases hp1 : parseRow r1 <;> simp [hp1]
              cases hp2 : parseRow r2 <;> simp [hp2]
            · rcases hbad with hlen | ⟨j, hj, hrowe⟩
              · exfalso
                simp only [List.length_cons] at hlen
                omega
              · rcases j with _ | _ | _ | j
                · rw [show (line :: r1 :: r2 :: r3 :: tl).getD (0 + 1 + 0) "" = r1
                      from rfl] at hrowe
                  simp only [hrowe, except_error_bind]
                  exact ⟨_, rfl⟩
                · rw [show (line :: r1 :: r2 :: r3 :: tl).getD (0 + 1 + 1) "" = r2
                      from rfl] at hrowe
                  cases hp1 : parseRow r1 <;>
                    simp only [hp1, except_ok_bind, except_error_bind]
                  · exact ⟨_, rfl⟩
                  · simp only [hrowe, except_error_bind]
                    exact ⟨_, rfl⟩
                · rw [show (line :: r1 :: r2 :: r3 :: tl).getD (0 + 1 + 2) "" = r3
                      from rfl] at hrowe
                  cases hp1 : parseRow r1 <;>
                    simp only [hp1, except_ok_bind, except_error_bind]
                  · exact ⟨_, rfl⟩
                  cases hp2 : parseRow r2 <;>
                    simp only [hp2, except_ok_bind, except_error_bind]
                  · exact ⟨_, rfl⟩
                  · simp only [hrowe, except_error_bind]
                    exact ⟨_, rfl⟩
                · exact absurd hj (by omega)
        | succ j =>
            have hi' : j < rest.length := by
              simp only [List.length_cons] at hi; omega
            have hmark' :
                containsSubstr "Tensor in molecular frame" (rest.getD j "") = true := by
              simpa using hmark
            have hbad' : rest.length ≤ j + 3 ∨
                ∃ jj, jj < 3 ∧
                  parseRow (rest.getD (j + 1 + jj) "") = Except.error PyError.valueError := by
              rcases hbad with hlen | ⟨jj, hjj, hrowe⟩
              · left
                simp only [List.length_cons] at hlen
                omega
              · right
                refine ⟨jj, hjj, ?_⟩
                rw [show j + 1 + 1 + jj = (j + 1 + jj) + 1 from by omega,
                  List.getD_cons_succ] at hrowe
                exact hrowe
            split
            · rcases rest with _ | ⟨r1, _ | ⟨r2, _ | ⟨r3, tl⟩⟩⟩
              · exact ⟨_, rfl⟩
              · cases hp : parseRow r1 <;> simp [hp]
              · cases hp1 : parseRow r1 <;> simp [hp1]
                cases hp2 : parseRow r2 <;> simp [hp2]
              · cases hp1 : parseRow r1 <;> simp only [hp1, except_ok_bind, except_error_bind]
                · exact ⟨_, rfl⟩
                cases hp2 : parseRow r2 <;> simp only [hp2, except_ok_bind, except_error_bind]
                · exact ⟨_, rfl⟩
                cases hp3 : parseRow r3 <;> simp only [hp3, except_ok_bind, except_error_bind]
                · exact ⟨_, rfl⟩
                · exact ih j _ _ hi' hmark' hbad'
            · exact ih j _ _ hi' hmark' hbad'

/-- C4 (amended): a tensor-block marker followed by fewer than 3 remaining
lines, or whose 3 following lines include a non-numeric token, makes the
extractor fail (`IndexError` / `ValueError` — the spec's ParseError), and no
mapping (hence no record) is returned.  The remaining half of the original
claim — that a wrong COUNT of numeric tokens per row also fails — is refuted
by `C4_counterexample`: a uniform-width block of numeric 2-token rows is
accepted by the scan and a record emitted (only an inhomogeneous block can
still fail later, inside `np.array` on numpy ≥ 1.24 — outside the scan). -/
theorem C4_malformed_block_fails (lines : List String) (i : ℕ)
    (hi : i < lines.length)
    (hmark : containsSubstr "Tensor in molecular frame" (lines.getD i "") = true)
    (hbad : lines.length ≤ i + 3 ∨
      ∃ j, j < 3 ∧ ∃ tok ∈ pySplit (lines.getD (i + 1 + j) ""), pyFloat? tok = none) :
    ∃ e, parse_orca_output lines = Except.error e := by
  refine parseLoop_badblock lines i none [] hi hmark ?_
  rcases hbad with h | ⟨j, hj, tok, htok, hbadtok⟩
  · exact Or.inl h
  · exact Or.inr ⟨j, hj, parseRow_error_of_bad_token _ tok htok hbadtok⟩

/-! ### The pipeline claim -/

/-- Every record a successful `processEntries` run returns has its
temperature inside the inclusive bounds. -/
theorem processEntries_range (eigh : Matrix3 → List ℚ) (min_temp max_temp : ℚ) :
    ∀ (d : TensorDict) (rs : List ResultRecord),
      processEntries eigh min_temp max_temp d = Except.ok rs →
      ∀ r ∈ rs, min_temp ≤ r.temperature ∧ r.temperature ≤ max_temp := by
  intro d
  induction d with
  | nil =>
      intro rs h r hr
      rw [processEntries.eq_def] at h
      dsimp only at h
      cases h
      simp at hr
  | cons p rest ih =>
      obtain ⟨temp, chi⟩ := p
      intro rs h r hr
      rw [processEntries.eq_def] at h
      dsimp only at h
      split at h
      · cases h
      · rename_i t
        split at h
        · rename_i hrange
          split at h
          · cases hconv : convert_chi_tensor (toMatrix3 chi) (some t) <;>
              rw [hconv] at h <;>
              simp only [except_ok_bind, except_error_bind] at h
            · cases h
            · cases hrec : processEntries eigh min_temp max_temp rest <;>
                rw [hrec] at h <;>
                simp only [except_ok_bind, except_error_bind] at h
              · cases h
              · cases h
                rcases List.mem_cons.mp hr with hr0 | hr'
                · subst hr0
                  exact hrange
                · exact ih _ hrec r hr'
          · cases h
        · exact ih rs h r hr

/-- C7: the pipeline never returns a record whose temperature lies strictly
outside the inclusive `[min_temp, max_temp]` range. -/
theorem C7_range_filter (eigh : Matrix3 → List ℚ) (lines : List String)
    (min_temp max_temp : ℚ) (rs : List ResultRecord)
    (h : process_orca_file eigh lines min_temp max_temp = Except.ok rs) :
    ∀ r ∈ rs, min_temp ≤ r.temperature ∧ r.temperature ≤ max_temp := by
  rw [process_orca_file] at h
  cases hp : parse_orca_output lines <;> rw [hp] at h <;>
    simp only [except_ok_bind, except_error_bind] at h
  · cases h
  · exact processEntries_range eigh min_temp max_temp _ rs h

/-! ### Field-level unfoldings of `calculate_eigenvalues` -/

theorem calculate_eigenvalues_eigvals (eigh : Matrix3 → List ℚ) (chi : Matrix3) :
    (calculate_eigenvalues eigh chi).eigvals
      = mehringSort (eigh (calculate_traceless_tensor chi)) := rfl

theorem calculate_eigenvalues_ax1 (eigh : Matrix3 → List ℚ) (chi : Matrix3) :
    (calculate_eigenvalues eigh chi).ax_method1
      = 3 * (calculate_eigenvalues eigh chi).eigvals.getD 2 0 / 2 := rfl

theorem calculate_eigenvalues_rh1 (eigh : Matrix3 → List ℚ) (chi : Matrix3) :
    (calculate_eigenvalues eigh chi).rh_method1
      = ((calculate_eigenvalues eigh chi).eigvals.getD 0 0
          - (calculate_eigenvalues eigh chi).eigvals.getD 1 0) / 2 := rfl

theorem calculate_eigenvalues_ax2 (eigh : Matrix3 → List ℚ) (chi : Matrix3) :
    (calculate_eigenvalues eigh chi).ax_method2
      = (calculate_eigenvalues eigh chi).eigvals.getD 2 0
          - (((calculate_eigenvalues eigh chi).eigvals.getD 0 0
              + (calculate_eigenvalues eigh chi).eigvals.getD 1 0) / 2) := rfl

theorem calculate_eigenvalues_rh2 (eigh : Matrix3 → List ℚ) (chi : Matrix3) :
    (calculate_eigenvalues eigh chi).rh_method2
      = (calculate_eigenvalues eigh chi).eigvals.getD 0 0
          - (calculate_eigenvalues eigh chi).eigvals.getD 1 0 := rfl

/-! ### Claims about the calculator -/

/-- C2: the traceless reduction yields a matrix of trace exactly zero (the
exact-arithmetic reading of `|trace(traceless)| < 1e-9`). -/
theorem C2_traceless_trace_zero (chi_tensor : Matrix3) :
    Matrix.trace (calculate_traceless_tensor chi_tensor) = 0 := by
  simp [calculate_traceless_tensor, Matrix.trace_smul, Matrix.trace_one]

/-- C3: the unit conversion fails with a clean, surfaced error — the spec's
DomainError, raised in Python as `TypeError` / `ZeroDivisionError` — when the
temperature is null or zero; it never returns a numeric result there. -/
theorem C3_convert_errors_on_zero_or_null (chi_tensor : Matrix3) :
    convert_chi_tensor chi_tensor none = Except.error PyError.typeError ∧
    convert_chi_tensor chi_tensor (some 0) = Except.error PyError.zeroDivisionError := by
  constructor <;> simp [convert_chi_tensor]

/-- C1: the eigenvalue triple returned by the calculator is a permutation of
the eigenvalues the symmetric eigensolver yields on the traceless tensor,
reordered ascending by absolute value (Mehring order). -/
theorem C1_mehring_order (eigh : Matrix3 → List ℚ) (chi : Matrix3) :
    (calculate_eigenvalues eigh chi).eigvals.Perm
        (eigh (calculate_traceless_tensor chi)) ∧
    List.Sorted (fun a b : ℚ => |a| ≤ |b|)
        (calculate_eigenvalues eigh chi).eigvals := by
  rw [calculate_eigenvalues_eigvals]
  constructor
  · exact List.perm_insertionSort _ _
  · haveI : IsTotal ℚ (fun a b : ℚ => |a| ≤ |b|) := ⟨fun a b => le_total _ _⟩
    haveI : IsTrans ℚ (fun a b : ℚ => |a| ≤ |b|) := ⟨fun a b c hab hbc => le_trans hab hbc⟩
    exact List.sorted_insertionSort _ _

/-- C8: converting at a nonzero temperature multiplies the tensor by
`conv_factor T`, and dividing the converted tensor entrywise by that same
factor recovers the original tensor exactly. -/
theorem C8_convert_roundtrip (chi_tensor : Matrix3) (t : ℚ) (h : t ≠ 0) :
    convert_chi_tensor chi_tensor (some t) = Except.ok (conv_factor t • chi_tensor) ∧
    (conv_factor t • chi_tensor).map (fun x => x / conv_factor t) = chi_tensor := by
  have hfac : conv_factor t ≠ 0 := by
    have hnum : 4 * np_pi * 1e24 ≠ 0 := by norm_num [np_pi]
    have hden : avogadro_number * t ≠ 0 := by
      have : avogadro_number ≠ 0 := by norm_num [avogadro_number]
      exact mul_ne_zero this h
    exact div_ne_zero hnum hden
  refine ⟨by simp [convert_chi_tensor, h], ?_⟩
  ext i j
  simp [Matrix.map_apply, Matrix.smul_apply, smul_eq_mul]
  exact mul_div_cancel_left₀ _ hfac

/-- C9: when the two smallest-magnitude eigenvalues coincide, both
rhombicity conventions evaluate to exactly 0. -/
theorem C9_degenerate_rhombicity_zero (eigh : Matrix3 → List ℚ) (chi : Matrix3)
    (h : (calculate_eigenvalues eigh chi).eigvals.getD 0 0
        = (calculate_eigenvalues eigh chi).eigvals.getD 1 0) :
    (calculate_eigenvalues eigh chi).rh_method1 = 0 ∧
    (calculate_eigenvalues eigh chi).rh_method2 = 0 := by
  rw [calculate_eigenvalues_rh1, calculate_eigenvalues_rh2, h]
  norm_num

/-- C10: if the three eigenvalues sum to zero (as the eigenvalues of a
traceless tensor do in exact arithmetic), the two axiality conventions
coincide; and unconditionally `rh_method2 = 2 * rh_method1`. -/
theorem C10_conventions_agree (eigh : Matrix3 → List ℚ) (chi : Matrix3) :
    ((calculate_eigenvalues eigh chi).eigvals.getD 0 0
        + (calculate_eigenvalues eigh chi).eigvals.getD 1 0
        + (calculate_eigenvalues eigh chi).eigvals.getD 2 0 = 0 →
      (calculate_eigenvalues eigh chi).ax_method1
        = (calculate_eigenvalues eigh chi).ax_method2) ∧
    (calculate_eigenvalues eigh chi).rh_method2
      = 2 * (calculate_eigenvalues eigh chi).rh_method1 := by
  rw [calculate_eigenvalues_ax1, calculate_eigenvalues_ax2,
    calculate_eigenvalues_rh1, calculate_eigenvalues_rh2]
  constructor
  · intro h
    linarith
  · ring

/-! ### Counterexample to C4 as stated, and concrete witnesses

Batteries marks the `Rat` field operations `@[irreducible]`; they are made
semireducible here so that concrete runs evaluate inside `decide` / `rfl`. -/

section ConcreteEvaluation

attribute [local semireducible] Rat.mul Rat.add Rat.sub Rat.inv Rat.ofScientific

/-- C4 counterexample: a tensor block whose three rows each hold only TWO
numeric tokens is accepted — the extractor returns successfully and emits a
record (with 3×2 rows) instead of failing with a parse error.  The width is
uniform, so `np.array` builds a 3×2 float array in every numpy version: the
Python code accepts this input unconditionally. -/
theorem C4_counterexample :
    parse_orca_output ["TEMPERATURE/K:   50.0", "Tensor in molecular frame",
        "1.0 2.0", "3.0 4.0", "5.0 6.0"]
      = Except.ok [(some 50, [[1, 2], [3, 4], [5, 6]])] := by rfl

theorem C4_malformed_block_fails_witness :
    (∃ e, parse_orca_output ["Tensor in molecular frame"] = Except.error e) ∧
    (∃ e, parse_orca_output ["Tensor in molecular frame", "1.0 aa 2.0",
        "3.0 4.0 5.0", "6.0 7.0 8.0"] = Except.error e) :=
  ⟨C4_malformed_block_fails ["Tensor in molecular frame"] 0 (by decide) (by rfl)
      (Or.inl (by decide)),
    C4_malformed_block_fails ["Tensor in molecular frame", "1.0 aa 2.0",
        "3.0 4.0 5.0", "6.0 7.0 8.0"] 0 (by decide) (by rfl)
      (Or.inr ⟨0, by decide, "aa", by decide, by rfl⟩)⟩

theorem C5_pre_temperature_block_null_key_witness :
    (dictLookup none [(none, [[1, 2, 3], [4, 5, 6], [7, 8, 9]])]).isSome = true :=
  C5_pre_temperature_block_null_key [] "Tensor in molecular frame"
    "1.0 2.0 3.0" "4.0 5.0 6.0" "7.0 8.0 9.0" []
    [1, 2, 3] [4, 5, 6] [7, 8, 9] [(none, [[1, 2, 3], [4, 5, 6], [7, 8, 9]])]
    (by simp) (by rfl) (by rfl) (by rfl) (by rfl) (by rfl) (by rfl)

theorem C6_last_write_wins_witness :
    parse_orca_output ["TEMPERATURE/K:  50.0", "Tensor in molecular frame",
        "1.0 0.0 0.0", "0.0 2.0 0.0", "0.0 0.0 3.0",
        "Tensor in molecular frame",
        "9.0 0.0 0.0", "0.0 9.0 0.0", "0.0 0.0 9.0"]
      = Except.ok [(some 50, [[9, 0, 0], [0, 9, 0], [0, 0, 9]])] ∧
    (parse_orca_output ["TEMPERATURE/K:  10.0"] = Except.ok []
      ∨ ∃ e, parse_orca_output ["TEMPERATURE/K:  10.0"] = Except.error e) :=
  C6_last_write_wins "TEMPERATURE/K:  50.0" "Tensor in molecular frame"
    "1.0 0.0 0.0" "0.0 2.0 0.0" "0.0 0.0 3.0" "Tensor in molecular frame"
    "9.0 0.0 0.0" "0.0 9.0 0.0" "0.0 0.0 9.0" "50.0" 50
    [1, 0, 0] [0, 2, 0] [0, 0, 3] [9, 0, 0] [0, 9, 0] [0, 0, 9]
    ["TEMPERATURE/K:  10.0"]
    (by rfl) (by rfl) (by rfl) (by rfl) (by rfl) (by rfl) (by rfl) (by rfl)
    (by decide) (by decide)
    (by rfl) (by rfl) (by rfl) (by rfl) (by rfl) (by rfl) (by decide)

theorem C7_range_filter_witness :
    (0 : ℚ) ≤ (ResultRecord.mk 50
        (calculate_traceless_tensor
          (conv_factor 50 • toMatrix3 [[0, 0, 0], [0, 0, 0], [0, 0, 0]]))
        [] 0 0 0 0 0 0).temperature ∧
    (ResultRecord.mk 50
        (calculate_traceless_tensor
          (conv_factor 50 • toMatrix3 [[0, 0, 0], [0, 0, 0], [0, 0, 0]]))
        [] 0 0 0 0 0 0).temperature ≤ 100 :=
  C7_range_filter (fun _ => []) ["TEMPERATURE/K:  50.0", "Tensor in molecular frame",
      "0.0 0.0 0.0", "0.0 0.0 0.0", "0.0 0.0 0.0"] 0 100
    [ResultRecord.mk 50
      (calculate_traceless_tensor
        (conv_factor 50 • toMatrix3 [[0, 0, 0], [0, 0, 0], [0, 0, 0]]))
      [] 0 0 0 0 0 0] (by rfl)
    (ResultRecord.mk 50
      (calculate_traceless_tensor
        (conv_factor 50 • toMatrix3 [[0, 0, 0], [0, 0, 0], [0, 0, 0]]))
      [] 0 0 0 0 0 0) (by simp)

theorem C8_convert_roundtrip_witness :
    (2 : ℚ) ≠ 0 ∧
    (convert_chi_tensor 1 (some 2) = Except.ok (conv_factor 2 • (1 : Matrix3)) ∧
      (conv_factor 2 • (1 : Matrix3)).map (fun x => x / conv_factor 2) = 1) :=
  ⟨by norm_num, C8_convert_roundtrip 1 2 (by norm_num)⟩

theorem C9_degenerate_rhombicity_zero_witness :
    ((calculate_eigenvalues (fun _ => [5, 5, 7]) 0).eigvals.getD 0 0
        = (calculate_eigenvalues (fun _ => [5, 5, 7]) 0).eigvals.getD 1 0) ∧
    ((calculate_eigenvalues (fun _ => [5, 5, 7]) 0).rh_method1 = 0 ∧
      (calculate_eigenvalues (fun _ => [5, 5, 7]) 0).rh_method2 = 0) :=
  ⟨by decide, C9_degenerate_rhombicity_zero (fun _ => [5, 5, 7]) 0 (by decide)⟩

theorem C10_conventions_agree_witness :
    (calculate_eigenvalues (fun _ => [1, -3, 2]) 0).ax_method1
        = (calculate_eigenvalues (fun _ => [1, -3, 2]) 0).ax_method2 ∧
    (calculate_eigenvalues (fun _ => [1, -3, 2]) 0).rh_method2
        = 2 * (calculate_eigenvalues (fun _ => [1, -3, 2]) 0).rh_method1 :=
  ⟨(C10_conventions_agree (fun _ => [1, -3, 2]) 0).1 (by decide),
    (C10_conventions_agree (fun _ => [1, -3, 2]) 0).2⟩

end ConcreteEvaluation

end TensorCalc
